import Mathlib

/-
Verification of the webhook-proxy backend: a shallow embedding of
`src/backend/integration_manager.py` (integration resolution),
`src/backend/services/integration_service.py` (message rendering and event
orchestration) and the secret extraction in `src/backend/app.py`.

JSON values are modelled by an inductive type (numbers as integers, which
covers every payload the specification discusses); Python dictionaries are
association lists in insertion order.  Fallible Python operations return
`Except PyError`; `PyError` distinguishes the exception classes the code can
raise (`KeyError`, `ValueError`, `IndexError`, `TypeError`, `AttributeError`).
-/

namespace WebhookProxy

/-- A JSON value, as produced by Flask request.get_json and PyYAML. -/
inductive Json where
  | null : Json
  | bool (b : Bool) : Json
  | num (n : Int) : Json
  | str (s : String) : Json
  | arr (xs : List Json) : Json
  | obj (kvs : List (String × Json)) : Json

/-- Python exceptions the embedded code can raise. -/
inductive PyError where
  | keyError (k : String) : PyError
  | valueError (m : String) : PyError
  | indexError (m : String) : PyError
  | typeError (m : String) : PyError
  | attributeError (m : String) : PyError

/-- The webhook payload: a JSON object, i.e. a mapping from string keys to
JSON values (Python dict, insertion ordered, keys unique). -/
abbrev Payload := List (String × Json)

/-- Python type name of a JSON value, used in error messages. -/
def pyTypeName : Json → String
  | .null => "NoneType"
  | .bool _ => "bool"
  | .num _ => "int"
  | .str _ => "str"
  | .arr _ => "list"
  | .obj _ => "dict"

/-- Python `k in payload` for a dict payload: top-level key membership. -/
def hasKey (p : Payload) (k : String) : Bool :=
  (p.lookup k).isSome

/-- Python `payload.get(k, d)` on the payload dict itself (always a dict). -/
def pyGetD (p : Payload) (k : String) (d : Json) : Json :=
  (p.lookup k).getD d

/-- Python `v.get(k, d)` on an arbitrary JSON value: succeeds only when `v`
is a dict, otherwise raises AttributeError (e.g. int has no attribute get). -/
def pyGet (v : Json) (k : String) (d : Json) : Except PyError Json :=
  match v with
  | .obj kvs => .ok ((kvs.lookup k).getD d)
  | w => .error (.attributeError (pyTypeName w ++ " object has no attribute get"))

/-- Python `len(v)`: defined for strings, lists and dicts; raises TypeError
for values without a length (None, bool, int). -/
def pyLen (v : Json) : Except PyError Int :=
  match v with
  | .str s => .ok s.length
  | .arr xs => .ok xs.length
  | .obj kvs => .ok kvs.length
  | w => .error (.typeError ("object of type " ++ pyTypeName w ++ " has no len()"))

/-- Hex digit for \uXXXX escapes. -/
def hexDigit (n : Nat) : Char :=
  if n < 10 then Char.ofNat (48 + n) else Char.ofNat (87 + n)

/-- Four-digit lowercase hex, as in json.dumps \uXXXX escapes. -/
def hex4 (n : Nat) : String :=
  String.mk [hexDigit (n / 4096 % 16), hexDigit (n / 256 % 16),
             hexDigit (n / 16 % 16), hexDigit (n % 16)]

/-- Escape of one character inside a JSON string, following json.dumps with
its default ensure_ascii=True (non-ASCII becomes \uXXXX, astral characters a
surrogate pair). -/
def jsonEscapeChar (c : Char) : String :=
  if c = '"' then "\\\""
  else if c = '\\' then "\\\\"
  else if c = '\n' then "\\n"
  else if c = '\t' then "\\t"
  else if c = '\r' then "\\r"
  else if c = '\x08' then "\\b"
  else if c = '\x0c' then "\\f"
  else if c.toNat < 32 || c.toNat > 126 then
    if c.toNat ≤ 65535 then "\\u" ++ hex4 c.toNat
    else
      "\\u" ++ hex4 (55296 + (c.toNat - 65536) / 1024) ++
      "\\u" ++ hex4 (56320 + (c.toNat - 65536) % 1024)
  else String.mk [c]

/-- Escape of a whole JSON string body. -/
def jsonEscape (s : String) : String :=
  String.join (s.data.map jsonEscapeChar)

mutual

/-- Python `json.dumps(v)` with default separators (", " and ": "). -/
def jsonDumps : Json → String
  | .null => "null"
  | .bool true => "true"
  | .bool false => "false"
  | .num n => toString n
  | .str s => "\"" ++ jsonEscape s ++ "\""
  | .arr xs => "[" ++ jsonDumpsList xs ++ "]"
  | .obj kvs => "\x7b" ++ jsonDumpsObj kvs ++ "\x7d"

/-- Comma-joined dump of array elements. -/
def jsonDumpsList : List Json → String
  | [] => ""
  | [x] => jsonDumps x
  | x :: y :: xs => jsonDumps x ++ ", " ++ jsonDumpsList (y :: xs)

/-- Comma-joined dump of object entries. -/
def jsonDumpsObj : List (String × Json) → String
  | [] => ""
  | [(k, v)] => "\"" ++ jsonEscape k ++ "\": " ++ jsonDumps v
  | (k, v) :: e :: kvs =>
      "\"" ++ jsonEscape k ++ "\": " ++ jsonDumps v ++ ", " ++ jsonDumpsObj (e :: kvs)

end

mutual

/-- Python `repr(v)` for a JSON value (string quoting simplified to plain
single quotes; no claim exercises the escaped cases). -/
def pyRepr : Json → String
  | .null => "None"
  | .bool true => "True"
  | .bool false => "False"
  | .num n => toString n
  | .str s => "\x27" ++ s ++ "\x27"
  | .arr xs => "[" ++ pyReprList xs ++ "]"
  | .obj kvs => "\x7b" ++ pyReprObj kvs ++ "\x7d"

/-- Comma-joined repr of list elements. -/
def pyReprList : List Json → String
  | [] => ""
  | [x] => pyRepr x
  | x :: y :: xs => pyRepr x ++ ", " ++ pyReprList (y :: xs)

/-- Comma-joined repr of dict entries. -/
def pyReprObj : List (String × Json) → String
  | [] => ""
  | [(k, v)] => "\x27" ++ k ++ "\x27: " ++ pyRepr v
  | (k, v) :: e :: kvs => "\x27" ++ k ++ "\x27: " ++ pyRepr v ++ ", " ++ pyReprObj (e :: kvs)

end

/-- Python `str(v)`, used by str.format when substituting a value. -/
def pyStr (v : Json) : String :=
  match v with
  | .str s => s
  | w => pyRepr w

/-- One integration record from integrations.yml.  The Python code reads the
record as a dict with `.get`, so every field may be absent (`none`). -/
structure Integration where
  name : Option String := none
  source_url : Option String := none
  destination_url : Option String := none
  event_name : Option String := none
  message_format : Option String := none
  secret : Option String := none

/-- Event acceptance test of IntegrationManager.get_integration: for
"pull_request" the payload must contain key "pull_request", for "push" key
"commits", and for any other configured event_name that very string must be
a top-level payload key. -/
def accepts (event_name : String) (payload : Payload) : Bool :=
  if event_name = "pull_request" then hasKey payload "pull_request"
  else if event_name = "push" then hasKey payload "commits"
  else hasKey payload event_name

/-- The candidate list built by the loop in get_integration: records whose
secret equals the request secret and whose event strategy accepts the
payload.  A record without a secret field never matches (None != str). -/
def candidates (config : List Integration) (secret : String) (payload : Payload) :
    List Integration :=
  config.filter (fun integ =>
    integ.secret == some secret && accepts (integ.event_name.getD "") payload)

/-- IntegrationManager.get_integration: returns None on zero candidates,
the single candidate when unique, and raises ValueError on several. -/
def get_integration (config : List Integration) (secret : String) (payload : Payload) :
    Except PyError (Option Integration) :=
  match candidates config secret payload with
  | [] => .ok none
  | [r] => .ok (some r)
  | _ :: _ :: _ =>
      .error (.valueError "Se encontraron múltiples integraciones para el secret proporcionado.")

/-- Scanner state for Python str.format: inside literal text, right after an
opening brace, inside a replacement field (with the name read so far), or
right after a closing brace. -/
inductive FmtSt where
  | lit : FmtSt
  | brace : FmtSt
  | field (acc : List Char) : FmtSt
  | rbrace : FmtSt

/-- Variable lookup in the keyword arguments passed to str.format. -/
def lookupVar (vars : List (String × Json)) (k : String) : Option Json :=
  vars.lookup k

/-- Python `template.format(**vars)` as a character scanner, faithful to the
CPython behavior this code can trigger: doubled braces are literals, a field
name is looked up among the keyword arguments (KeyError when absent,
stringified with str() when present), an all-digit or empty field is a
positional reference (IndexError, since format receives no positional
arguments), and stray single braces raise ValueError. -/
def runFmt (vars : List (String × Json)) : List Char → FmtSt → Except PyError (List Char)
  | [], .lit => .ok []
  | [], .brace => .error (.valueError "Single \x7b encountered in format string")
  | [], .field _ => .error (.valueError "expected \x7d before end of string")
  | [], .rbrace => .error (.valueError "Single \x7d encountered in format string")
  | c :: rest, .lit =>
      if c = '{' then runFmt vars rest .brace
      else if c = '}' then runFmt vars rest .rbrace
      else (runFmt vars rest .lit).map (fun s => c :: s)
  | c :: rest, .brace =>
      if c = '{' then (runFmt vars rest .lit).map (fun s => '{' :: s)
      else if c = '}' then .error (.indexError "Replacement index 0 out of range")
      else runFmt vars rest (.field [c])
  | c :: rest, .field acc =>
      if c = '}' then
        if acc.all Char.isDigit then
          .error (.indexError "Replacement index out of range")
        else
          match lookupVar vars (String.mk acc) with
          | some v => (runFmt vars rest .lit).map (fun s => (pyStr v).data ++ s)
          | none => .error (.keyError (String.mk acc))
      else runFmt vars rest (.field (acc ++ [c]))
  | c :: rest, .rbrace =>
      if c = '}' then (runFmt vars rest .lit).map (fun s => '}' :: s)
      else .error (.valueError "Single \x7d encountered in format string")

/-- Characters that keep a replacement field a plain keyword lookup (no
attribute access, indexing, conversion or format spec). -/
def plainFieldChar (c : Char) : Bool :=
  !(c = '.' || c = '[' || c = ']' || c = '!' || c = ':' || c = '{')

/-- The placeholder names of a template, in order; `none` when the template
is malformed (stray single braces), uses positional fields, or uses field
syntax beyond plain keyword names.  On `some` the template is exactly one
the scanner `runFmt` resolves by keyword lookups. -/
def runFields : List Char → FmtSt → Option (List String)
  | [], .lit => some []
  | [], _ => none
  | c :: rest, .lit =>
      if c = '{' then runFields rest .brace
      else if c = '}' then runFields rest .rbrace
      else runFields rest .lit
  | c :: rest, .brace =>
      if c = '{' then runFields rest .lit
      else if c = '}' then none
      else runFields rest (.field [c])
  | c :: rest, .field acc =>
      if c = '}' then
        if acc.all Char.isDigit || !acc.all plainFieldChar then none
        else (runFields rest .lit).map (fun ps => String.mk acc :: ps)
      else runFields rest (.field (acc ++ [c]))
  | c :: rest, .rbrace =>
      if c = '}' then runFields rest .lit
      else none

/-- Placeholder names of a template string. -/
def templateFields (t : String) : Option (List String) :=
  runFields t.data .lit

/-- Python `t.format(**vars)` on a template string. -/
def pyFormat (vars : List (String × Json)) (t : String) : Except PyError String :=
  (runFmt vars t.data .lit).map String.mk

/-- generate_message, pull_request branch: payload.get("action", "actualizó"). -/
def actionOf (p : Payload) : Json :=
  pyGetD p "action" (.str "actualizó")

/-- generate_message, pull_request branch:
payload.get("pull_request", \x7b\x7d).get("user", \x7b\x7d).get("login", "usuario_desconocido"). -/
def prUserOf (p : Payload) : Except PyError Json := do
  let u ← pyGet (pyGetD p "pull_request" (.obj [])) "user" (.obj [])
  pyGet u "login" (.str "usuario_desconocido")

/-- generate_message: payload.get("repository", \x7b\x7d).get("name", "repositorio_desconocido"),
shared by the pull_request and push branches. -/
def repositoryOf (p : Payload) : Except PyError Json :=
  pyGet (pyGetD p "repository" (.obj [])) "name" (.str "repositorio_desconocido")

/-- generate_message, pull_request branch:
payload.get("pull_request", \x7b\x7d).get("title", "sin título"). -/
def prTitleOf (p : Payload) : Except PyError Json :=
  pyGet (pyGetD p "pull_request" (.obj [])) "title" (.str "sin título")

/-- generate_message, push branch: payload.get("pusher", \x7b\x7d).get("name", "usuario_desconocido"). -/
def pusherOf (p : Payload) : Except PyError Json :=
  pyGet (pyGetD p "pusher" (.obj [])) "name" (.str "usuario_desconocido")

/-- generate_message, push branch: len(payload.get("commits", [])). -/
def commitCountOf (p : Payload) : Except PyError Int :=
  pyLen (pyGetD p "commits" (.arr []))

/-- The format_vars dict built by IntegrationService.generate_message,
dispatching on the integration event_name (default "" when absent); the
lookups run in source order, so the first failing lookup's exception is the
one raised. -/
def formatVarsFor (integration : Integration) (payload : Payload) :
    Except PyError (List (String × Json)) :=
  if integration.event_name.getD "" = "pull_request" then do
    let pr_user ← prUserOf payload
    let repository ← repositoryOf payload
    let pr_title ← prTitleOf payload
    .ok [("action", actionOf payload), ("pr_user", pr_user),
         ("repository", repository), ("pr_title", pr_title)]
  else if integration.event_name.getD "" = "push" then do
    let pusher ← pusherOf payload
    let repository ← repositoryOf payload
    let commit_count ← commitCountOf payload
    .ok [("pusher", pusher), ("repository", repository),
         ("commit_count", .num commit_count)]
  else
    .ok [("payload", .str (jsonDumps (.obj payload)))]

/-- The fallback message assembled when formatting raises KeyError:
"Evento recibido: " + json.dumps(payload). -/
def fallbackMessage (payload : Payload) : String :=
  "Evento recibido: " ++ jsonDumps (.obj payload)

/-- IntegrationService.generate_message: build format_vars, then format
integration["message_format"]; a KeyError (missing message_format key or a
placeholder absent from format_vars) is caught and replaced by the fallback
message, every other exception propagates. -/
def generate_message (integration : Integration) (payload : Payload) :
    Except PyError String :=
  match formatVarsFor integration payload with
  | .error e => .error e
  | .ok vars =>
      match integration.message_format with
      | none => .ok (fallbackMessage payload)
      | some t =>
          match pyFormat vars t with
          | .ok m => .ok m
          | .error (.keyError _) => .ok (fallbackMessage payload)
          | .error e => .error e

/-- IntegrationService.process_event up to the outbound POST: resolve the
integration (propagating the ambiguity ValueError), raise ValueError when
none is found, render the message, and hand (integration, message) to
send_to_destination. -/
def process_event (config : List Integration) (secret : String) (payload : Payload) :
    Except PyError (Integration × String) := do
  let integ? ← get_integration config secret payload
  match integ? with
  | none => .error (.valueError "No se encontró integración válida para el secret proporcionado.")
  | some integ => do
      let message ← generate_message integ payload
      .ok (integ, message)

/-- The character sequence of the literal "Bearer " that handle_webhook
passes to str.replace. -/
def bearerChars : List Char := ['B', 'e', 'a', 'r', 'e', 'r', ' ']

/-- handle_webhook in app.py: the non-overlapping left-to-right removal of
every occurrence of "Bearer " performed by secret.replace("Bearer ", ""). -/
def replaceBearer : List Char → List Char
  | [] => []
  | c :: rest =>
      if bearerChars.isPrefixOf (c :: rest) then replaceBearer (rest.drop 6)
      else c :: replaceBearer rest
termination_by l => l.length
decreasing_by
  · simp [List.length_drop]
    omega
  · simp

/-- The secret handed to process_event by handle_webhook, derived from the
Authorization header value. -/
def extractSecret (authHeader : String) : String :=
  String.mk (replaceBearer authHeader.data)

/-- Whether "Bearer " occurs as a substring, scanning like replaceBearer. -/
def containsBearer : List Char → Bool
  | [] => false
  | c :: rest => bearerChars.isPrefixOf (c :: rest) || containsBearer rest

/-- Modelled from the spec wording "extract X (payload k, default d)":
the top-level value when present, the default otherwise. -/
def specGet (p : Payload) (k : String) (d : Json) : Json :=
  (p.lookup k).getD d

/-- Modelled from the spec wording "extract X (payload k1.k2, default d)":
safe navigation through one intermediate object, default when any step is
absent or not an object. -/
def specPath2 (p : Payload) (k1 k2 : String) (d : Json) : Json :=
  match p.lookup k1 with
  | some (.obj kvs) => (kvs.lookup k2).getD d
  | _ => d

/-- Modelled from the spec wording "extract X (payload k1.k2.k3, default d)":
safe navigation through two intermediate objects. -/
def specPath3 (p : Payload) (k1 k2 k3 : String) (d : Json) : Json :=
  match p.lookup k1 with
  | some (.obj kvs) =>
      match kvs.lookup k2 with
      | some (.obj kvs2) => (kvs2.lookup k3).getD d
      | _ => d
  | _ => d

/-- Modelled from the claim wording for the push commit count: the count of
entries in payload "commits", defaulting to 0 if absent or not a sequence. -/
def specCommitCount (p : Payload) : Int :=
  match p.lookup "commits" with
  | some (.arr xs) => xs.length
  | _ => 0

/-- The push-event variable set as the claim describes it. -/
def pushVarsSpec (p : Payload) : List (String × Json) :=
  [("pusher", specPath2 p "pusher" "name" (.str "usuario_desconocido")),
   ("repository", specPath2 p "repository" "name" (.str "repositorio_desconocido")),
   ("commit_count", .num (specCommitCount p))]

/-- The pull_request-event variable set as the claim describes it. -/
def pullReqVarsSpec (p : Payload) : List (String × Json) :=
  [("action", specGet p "action" (.str "actualizó")),
   ("pr_user", specPath3 p "pull_request" "user" "login" (.str "usuario_desconocido")),
   ("repository", specPath2 p "repository" "name" (.str "repositorio_desconocido")),
   ("pr_title", specPath2 p "pull_request" "title" (.str "sin título"))]

/-- Shape predicate: key absent from the payload, or present as a JSON
object (the shapes on which dict.get chains cannot raise). -/
def objOrAbsent (p : List (String × Json)) (k : String) : Bool :=
  match p.lookup k with
  | none => true
  | some (.obj _) => true
  | some _ => false

/-- Shape predicate: key absent, or present as a JSON array. -/
def arrOrAbsent (p : List (String × Json)) (k : String) : Bool :=
  match p.lookup k with
  | none => true
  | some (.arr _) => true
  | some _ => false

/-- Shape predicate: `k1` absent or an object, and in the latter case its
`k2` entry absent or an object. -/
def objOrAbsent2 (p : Payload) (k1 k2 : String) : Bool :=
  match p.lookup k1 with
  | none => true
  | some (.obj kvs) => objOrAbsent kvs k2
  | some _ => false

@[simp]
theorem exceptBind_ok {α β : Type} (a : α) (f : α → Except PyError β) :
    (Except.ok a : Except PyError α) >>= f = f a := rfl

@[simp]
theorem exceptBind_error {α β : Type} (e : PyError) (f : α → Except PyError β) :
    (Except.error e : Except PyError α) >>= f = .error e := rfl

@[simp]
theorem exceptMap_ok {α β : Type} (f : α → β) (a : α) :
    (Except.ok a : Except PyError α).map f = .ok (f a) := rfl

@[simp]
theorem exceptMap_error {α β : Type} (f : α → β) (e : PyError) :
    (Except.error e : Except PyError α).map f = .error e := rfl

/-- When a template scans to a placeholder list and every placeholder is
bound among the format variables, the format scanner succeeds. -/
theorem runFields_ok_runFmt (vars : List (String × Json)) :
    ∀ (l : List Char) (st : FmtSt) (ps : List String),
      runFields l st = some ps →
      (∀ n ∈ ps, (lookupVar vars n).isSome = true) →
      ∃ s, runFmt vars l st = .ok s := by
  intro l
  induction l with
  | nil =>
    intro st ps h _
    cases st with
    | lit => exact ⟨[], rfl⟩
    | brace => simp [runFields] at h
    | field acc => simp [runFields] at h
    | rbrace => simp [runFields] at h
  | cons c rest ih =>
    intro st ps h hvars
    cases st with
    | lit =>
      simp only [runFields] at h
      by_cases h1 : c = '{'
      · rw [if_pos h1] at h
        obtain ⟨s, hs⟩ := ih .brace ps h hvars
        exact ⟨s, by simp [runFmt, h1, hs]⟩
      · rw [if_neg h1] at h
        by_cases h2 : c = '}'
        · rw [if_pos h2] at h
          obtain ⟨s, hs⟩ := ih .rbrace ps h hvars
          exact ⟨s, by simp [runFmt, h1, h2, hs]⟩
        · rw [if_neg h2] at h
          obtain ⟨s, hs⟩ := ih .lit ps h hvars
          exact ⟨c :: s, by simp [runFmt, h1, h2, hs]⟩
    | brace =>
      simp only [runFields] at h
      by_cases h1 : c = '{'
      · rw [if_pos h1] at h
        obtain ⟨s, hs⟩ := ih .lit ps h hvars
        exact ⟨'{' :: s, by simp [runFmt, h1, hs]⟩
      · rw [if_neg h1] at h
        by_cases h2 : c = '}'
        · rw [if_pos h2] at h
          simp at h
        · rw [if_neg h2] at h
          obtain ⟨s, hs⟩ := ih (.field [c]) ps h hvars
          exact ⟨s, by simp [runFmt, h1, h2, hs]⟩
    | field acc =>
      simp only [runFields] at h
      by_cases h1 : c = '}'
      · rw [if_pos h1] at h
        by_cases h2 : (acc.all Char.isDigit || !acc.all plainFieldChar) = true
        · rw [if_pos h2] at h
          simp at h
        · rw [if_neg h2] at h
          rw [Option.map_eq_some'] at h
          obtain ⟨ps', hps', hcons⟩ := h
          have hdig : acc.all Char.isDigit = false :=
            (Bool.or_eq_false_iff.mp (Bool.eq_false_iff.mpr h2)).1
          have hmem : (lookupVar vars (String.mk acc)).isSome = true := by
            apply hvars
            rw [← hcons]
            exact List.mem_cons_self _ _
          obtain ⟨v, hv⟩ := Option.isSome_iff_exists.mp hmem
          have htail : ∀ n ∈ ps', (lookupVar vars n).isSome = true := by
            intro n hn
            apply hvars
            rw [← hcons]
            exact List.mem_cons_of_mem _ hn
          obtain ⟨s, hs⟩ := ih .lit ps' hps' htail
          exact ⟨(pyStr v).data ++ s, by simp [runFmt, h1, hdig, hv, hs]⟩
      · rw [if_neg h1] at h
        obtain ⟨s, hs⟩ := ih (.field (acc ++ [c])) ps h hvars
        exact ⟨s, by simp [runFmt, h1, hs]⟩
    | rbrace =>
      simp only [runFields] at h
      by_cases h1 : c = '}'
      · rw [if_pos h1] at h
        obtain ⟨s, hs⟩ := ih .lit ps h hvars
        exact ⟨'}' :: s, by simp [runFmt, h1, hs]⟩
      · rw [if_neg h1] at h
        simp at h

/-- When a template scans to a placeholder list and some placeholder is
unbound among the format variables, the format scanner raises KeyError. -/
theorem runFields_missing_runFmt (vars : List (String × Json)) :
    ∀ (l : List Char) (st : FmtSt) (ps : List String),
      runFields l st = some ps →
      (∃ n ∈ ps, lookupVar vars n = none) →
      ∃ k, runFmt vars l st = .error (.keyError k) := by
  intro l
  induction l with
  | nil =>
    intro st ps h hmiss
    cases st with
    | lit =>
      simp only [runFields, Option.some.injEq] at h
      subst h
      simp at hmiss
    | brace => simp [runFields] at h
    | field acc => simp [runFields] at h
    | rbrace => simp [runFields] at h
  | cons c rest ih =>
    intro st ps h hmiss
    cases st with
    | lit =>
      simp only [runFields] at h
      by_cases h1 : c = '{'
      · rw [if_pos h1] at h
        obtain ⟨k, hk⟩ := ih .brace ps h hmiss
        exact ⟨k, by simp [runFmt, h1, hk]⟩
      · rw [if_neg h1] at h
        by_cases h2 : c = '}'
        · rw [if_pos h2] at h
          obtain ⟨k, hk⟩ := ih .rbrace ps h hmiss
          exact ⟨k, by simp [runFmt, h1, h2, hk]⟩
        · rw [if_neg h2] at h
          obtain ⟨k, hk⟩ := ih .lit ps h hmiss
          exact ⟨k, by simp [runFmt, h1, h2, hk]⟩
    | brace =>
      simp only [runFields] at h
      by_cases h1 : c = '{'
      · rw [if_pos h1] at h
        obtain ⟨k, hk⟩ := ih .lit ps h hmiss
        exact ⟨k, by simp [runFmt, h1, hk]⟩
      · rw [if_neg h1] at h
        by_cases h2 : c = '}'
        · rw [if_pos h2] at h
          simp at h
        · rw [if_neg h2] at h
          obtain ⟨k, hk⟩ := ih (.field [c]) ps h hmiss
          exact ⟨k, by simp [runFmt, h1, h2, hk]⟩
    | field acc =>
      simp only [runFields] at h
      by_cases h1 : c = '}'
      · rw [if_pos h1] at h
        by_cases h2 : (acc.all Char.isDigit || !acc.all plainFieldChar) = true
        · rw [if_pos h2] at h
          simp at h
        · rw [if_neg h2] at h
          rw [Option.map_eq_some'] at h
          obtain ⟨ps', hps', hcons⟩ := h
          have hdig : acc.all Char.isDigit = false :=
            (Bool.or_eq_false_iff.mp (Bool.eq_false_iff.mpr h2)).1
          cases hv : lookupVar vars (String.mk acc) with
          | none => exact ⟨String.mk acc, by simp [runFmt, h1, hdig, hv]⟩
          | some v =>
            obtain ⟨n, hn, hnone⟩ := hmiss
            rw [← hcons] at hn
            rcases List.mem_cons.mp hn with heq | htl
            · rw [heq] at hnone
              rw [hnone] at hv
              exact absurd hv (by simp)
            · obtain ⟨k, hk⟩ := ih .lit ps' hps' ⟨n, htl, hnone⟩
              exact ⟨k, by simp [runFmt, h1, hdig, hv, hk]⟩
      · rw [if_neg h1] at h
        obtain ⟨k, hk⟩ := ih (.field (acc ++ [c])) ps h hmiss
        exact ⟨k, by simp [runFmt, h1, hk]⟩
    | rbrace =>
      simp only [runFields] at h
      by_cases h1 : c = '}'
      · rw [if_pos h1] at h
        obtain ⟨k, hk⟩ := ih .lit ps h hmiss
        exact ⟨k, by simp [runFmt, h1, hk]⟩
      · rw [if_neg h1] at h
        simp at h

/-- A list without an occurrence of "Bearer " is left unchanged by the
replacement scan. -/
theorem replaceBearer_of_not_contains :
    ∀ l : List Char, containsBearer l = false → replaceBearer l = l := by
  intro l
  induction l with
  | nil => intro _; simp [replaceBearer]
  | cons c rest ih =>
    intro h
    simp only [containsBearer, Bool.or_eq_false_iff] at h
    rw [replaceBearer, if_neg (by simp [h.1])]
    rw [ih h.2]

/-- Removing a leading "Bearer " occurrence and continuing the scan. -/
theorem replaceBearer_cons_bearer (t : List Char) :
    replaceBearer ('B' :: 'e' :: 'a' :: 'r' :: 'e' :: 'r' :: ' ' :: t) = replaceBearer t := by
  have hpre : bearerChars.isPrefixOf ('B' :: 'e' :: 'a' :: 'r' :: 'e' :: 'r' :: ' ' :: t) = true := by
    simp [bearerChars, List.isPrefixOf]
  rw [replaceBearer, if_pos hpre]
  rfl

/-- A position where "Bearer " does not start copies one character. -/
theorem replaceBearer_cons_not (c : Char) (rest : List Char)
    (h : bearerChars.isPrefixOf (c :: rest) = false) :
    replaceBearer (c :: rest) = c :: replaceBearer rest := by
  rw [replaceBearer, if_neg (by simp [h])]

/-- The empty scan result. -/
theorem replaceBearer_nil : replaceBearer [] = [] := by
  rw [replaceBearer]

/-- On payloads whose "pusher" entry is absent or an object, the code's
pusher extraction agrees with the safe-navigation description. -/
theorem pusherOf_spec (p : Payload) (h : objOrAbsent p "pusher" = true) :
    pusherOf p = .ok (specPath2 p "pusher" "name" (.str "usuario_desconocido")) := by
  cases hl : p.lookup "pusher" with
  | none => simp [pusherOf, pyGetD, pyGet, specPath2, hl]
  | some v =>
    cases v with
    | obj kvs => simp [pusherOf, pyGetD, pyGet, specPath2, hl]
    | null => simp [objOrAbsent, hl] at h
    | bool b => simp [objOrAbsent, hl] at h
    | num n => simp [objOrAbsent, hl] at h
    | str s => simp [objOrAbsent, hl] at h
    | arr xs => simp [objOrAbsent, hl] at h

/-- On payloads whose "repository" entry is absent or an object, the code's
repository extraction agrees with the safe-navigation description. -/
theorem repositoryOf_spec (p : Payload) (h : objOrAbsent p "repository" = true) :
    repositoryOf p = .ok (specPath2 p "repository" "name" (.str "repositorio_desconocido")) := by
  cases hl : p.lookup "repository" with
  | none => simp [repositoryOf, pyGetD, pyGet, specPath2, hl]
  | some v =>
    cases v with
    | obj kvs => simp [repositoryOf, pyGetD, pyGet, specPath2, hl]
    | null => simp [objOrAbsent, hl] at h
    | bool b => simp [objOrAbsent, hl] at h
    | num n => simp [objOrAbsent, hl] at h
    | str s => simp [objOrAbsent, hl] at h
    | arr xs => simp [objOrAbsent, hl] at h

/-- On payloads whose "commits" entry is absent or an array, the code's
commit count agrees with the count-of-entries-or-zero description. -/
theorem commitCountOf_spec (p : Payload) (h : arrOrAbsent p "commits" = true) :
    commitCountOf p = .ok (specCommitCount p) := by
  cases hl : p.lookup "commits" with
  | none => simp [commitCountOf, pyGetD, pyLen, specCommitCount, hl]
  | some v =>
    cases v with
    | arr xs => simp [commitCountOf, pyGetD, pyLen, specCommitCount, hl]
    | null => simp [arrOrAbsent, hl] at h
    | bool b => simp [arrOrAbsent, hl] at h
    | num n => simp [arrOrAbsent, hl] at h
    | str s => simp [arrOrAbsent, hl] at h
    | obj kvs => simp [arrOrAbsent, hl] at h

/-- On payloads whose "pull_request" entry is absent or an object, the
code's title extraction agrees with the safe-navigation description. -/
theorem prTitleOf_spec (p : Payload) (h : objOrAbsent p "pull_request" = true) :
    prTitleOf p = .ok (specPath2 p "pull_request" "title" (.str "sin título")) := by
  cases hl : p.lookup "pull_request" with
  | none => simp [prTitleOf, pyGetD, pyGet, specPath2, hl]
  | some v =>
    cases v with
    | obj kvs => simp [prTitleOf, pyGetD, pyGet, specPath2, hl]
    | null => simp [objOrAbsent, hl] at h
    | bool b => simp [objOrAbsent, hl] at h
    | num n => simp [objOrAbsent, hl] at h
    | str s => simp [objOrAbsent, hl] at h
    | arr xs => simp [objOrAbsent, hl] at h

/-- On payloads whose "pull_request" and nested "user" entries are absent or
objects, the code's PR user extraction agrees with the safe-navigation
description. -/
theorem prUserOf_spec (p : Payload) (h : objOrAbsent2 p "pull_request" "user" = true) :
    prUserOf p = .ok (specPath3 p "pull_request" "user" "login" (.str "usuario_desconocido")) := by
  cases hl : p.lookup "pull_request" with
  | none => simp [prUserOf, pyGetD, pyGet, specPath3, hl]
  | some v =>
    cases v with
    | obj kvs =>
      have h2 : objOrAbsent kvs "user" = true := by
        simpa [objOrAbsent2, hl] using h
      cases hu : kvs.lookup "user" with
      | none => simp [prUserOf, pyGetD, pyGet, specPath3, hl, hu]
      | some u =>
        cases u with
        | obj kvs2 => simp [prUserOf, pyGetD, pyGet, specPath3, hl, hu]
        | null => simp [objOrAbsent, hu] at h2
        | bool b => simp [objOrAbsent, hu] at h2
        | num n => simp [objOrAbsent, hu] at h2
        | str s => simp [objOrAbsent, hu] at h2
        | arr xs => simp [objOrAbsent, hu] at h2
    | null => simp [objOrAbsent2, hl] at h
    | bool b => simp [objOrAbsent2, hl] at h
    | num n => simp [objOrAbsent2, hl] at h
    | str s => simp [objOrAbsent2, hl] at h
    | arr xs => simp [objOrAbsent2, hl] at h

/-- The nested shape predicate implies the top-level one. -/
theorem objOrAbsent2_fst (p : Payload) (k1 k2 : String)
    (h : objOrAbsent2 p k1 k2 = true) : objOrAbsent p k1 = true := by
  cases hl : p.lookup k1 with
  | none => simp [objOrAbsent, hl]
  | some v =>
    cases v with
    | obj kvs => simp [objOrAbsent, hl]
    | null => simp [objOrAbsent2, hl] at h
    | bool b => simp [objOrAbsent2, hl] at h
    | num n => simp [objOrAbsent2, hl] at h
    | str s => simp [objOrAbsent2, hl] at h
    | arr xs => simp [objOrAbsent2, hl] at h

/-- A push integration as configured in the specification's example. -/
def integPush : Integration :=
  { name := some "push-integ", destination_url := some "https://chat.example/hook",
    event_name := some "push",
    message_format := some "{pusher} pushed {commit_count} commits to {repository}",
    secret := some "s1" }

/-- The push example payload from the specification. -/
def payloadPush : Payload :=
  [("pusher", .obj [("name", .str "bob")]),
   ("repository", .obj [("name", .str "repo1")]),
   ("commits", .arr [.obj [], .obj [], .obj []])]

/-- A pull_request integration as configured in the specification's example. -/
def integPullRequest : Integration :=
  { name := some "pr-integ", destination_url := some "https://chat.example/hook",
    event_name := some "pull_request",
    message_format := some "PR {action} by {pr_user} on {repository}: {pr_title}",
    secret := some "s1" }

/-- The pull_request example payload from the specification. -/
def payloadPullRequest : Payload :=
  [("action", .str "opened"),
   ("pull_request", .obj [("user", .obj [("login", .str "alice")]), ("title", .str "Fix bug")]),
   ("repository", .obj [("name", .str "repo1")])]

/-- C1: get_integration returns a record r only if r's secret equals the
input secret exactly and r's event strategy accepts the payload — eventName
"pull_request" requires top-level key "pull_request", "push" requires
"commits", and any other eventName X requires top-level key X; a record
failing either condition is never returned. -/
theorem c1_resolution_requires_secret_and_acceptance
    (config : List Integration) (secret : String) (payload : Payload) (r : Integration)
    (h : get_integration config secret payload = .ok (some r)) :
    r.secret = some secret ∧
      ((r.event_name.getD "" = "pull_request" ∧ hasKey payload "pull_request" = true) ∨
       (r.event_name.getD "" = "push" ∧ hasKey payload "commits" = true) ∨
       (r.event_name.getD "" ≠ "pull_request" ∧ r.event_name.getD "" ≠ "push" ∧
        hasKey payload (r.event_name.getD "") = true)) := by
  have hr : r ∈ candidates config secret payload := by
    unfold get_integration at h
    cases hcand : candidates config secret payload with
    | nil => rw [hcand] at h; exact absurd h (by simp)
    | cons a tl =>
      cases tl with
      | nil =>
        rw [hcand] at h
        simp only [Except.ok.injEq, Option.some.injEq] at h
        simp [hcand, h]
      | cons b tl2 => rw [hcand] at h; exact absurd h (by simp)
  obtain ⟨hmem, hpred⟩ := List.mem_filter.mp hr
  rw [Bool.and_eq_true] at hpred
  obtain ⟨hsec, hacc⟩ := hpred
  refine ⟨by simpa using hsec, ?_⟩
  unfold accepts at hacc
  by_cases h1 : r.event_name.getD "" = "pull_request"
  · exact Or.inl ⟨h1, by rwa [if_pos h1] at hacc⟩
  · rw [if_neg h1] at hacc
    by_cases h2 : r.event_name.getD "" = "push"
    · exact Or.inr (Or.inl ⟨h2, by rwa [if_pos h2] at hacc⟩)
    · rw [if_neg h2] at hacc
      exact Or.inr (Or.inr ⟨h1, h2, hacc⟩)

/-- C1 witness: the push integration resolved against the push payload
satisfies the secret and acceptance conditions. -/
theorem c1_resolution_requires_secret_and_acceptance_witness :
    integPush.secret = some "s1" ∧
      ((integPush.event_name.getD "" = "pull_request" ∧ hasKey payloadPush "pull_request" = true) ∨
       (integPush.event_name.getD "" = "push" ∧ hasKey payloadPush "commits" = true) ∨
       (integPush.event_name.getD "" ≠ "pull_request" ∧ integPush.event_name.getD "" ≠ "push" ∧
        hasKey payloadPush (integPush.event_name.getD "") = true)) :=
  c1_resolution_requires_secret_and_acceptance [integPush] "s1" payloadPush integPush rfl

/-- C2: zero candidates make process_event fail with the not-found error
(never returning a record), exactly one candidate makes get_integration
return that record, and two or more make get_integration fail with the
ambiguity error instead of picking one by order. -/
theorem c2_resolution_outcomes
    (config : List Integration) (secret : String) (payload : Payload) :
    (candidates config secret payload = [] →
       process_event config secret payload =
         .error (.valueError "No se encontró integración válida para el secret proporcionado.")) ∧
    (∀ r : Integration, candidates config secret payload = [r] →
       get_integration config secret payload = .ok (some r)) ∧
    (2 ≤ (candidates config secret payload).length →
       get_integration config secret payload =
         .error (.valueError "Se encontraron múltiples integraciones para el secret proporcionado.")) := by
  refine ⟨?_, ?_, ?_⟩
  · intro h
    simp [process_event, get_integration, h]
  · intro r h
    simp [get_integration, h]
  · intro h
    cases hcand : candidates config secret payload with
    | nil => rw [hcand] at h; simp at h
    | cons a tl =>
      cases tl with
      | nil => rw [hcand] at h; simp at h
      | cons b tl2 => simp [get_integration, hcand]

/-- C2 witness: an empty registry yields the not-found error, a singleton
candidate list yields that record, and a duplicated record yields the
ambiguity error. -/
theorem c2_resolution_outcomes_witness :
    process_event [] "s1" [] =
      .error (.valueError "No se encontró integración válida para el secret proporcionado.") ∧
    get_integration [integPush] "s1" payloadPush = .ok (some integPush) ∧
    get_integration [integPush, integPush] "s1" payloadPush =
      .error (.valueError "Se encontraron múltiples integraciones para el secret proporcionado.") :=
  ⟨(c2_resolution_outcomes [] "s1" []).1 rfl,
   (c2_resolution_outcomes [integPush] "s1" payloadPush).2.1 integPush rfl,
   (c2_resolution_outcomes [integPush, integPush] "s1" payloadPush).2.2 (by decide)⟩

/-- C10: the no-match outcome and the multiple-match outcome of
process_event surface as the same exception constructor (ValueError),
differing only in their message text. -/
theorem c10_same_exception_type
    (config1 config2 : List Integration) (secret : String) (payload : Payload)
    (h1 : candidates config1 secret payload = [])
    (h2 : 2 ≤ (candidates config2 secret payload).length) :
    ∃ m1 m2 : String, m1 ≠ m2 ∧
      process_event config1 secret payload = .error (.valueError m1) ∧
      process_event config2 secret payload = .error (.valueError m2) := by
  refine ⟨"No se encontró integración válida para el secret proporcionado.",
          "Se encontraron múltiples integraciones para el secret proporcionado.",
          by decide, ?_, ?_⟩
  · simp [process_event, get_integration, h1]
  · cases hcand : candidates config2 secret payload with
    | nil => rw [hcand] at h2; simp at h2
    | cons a tl =>
      cases tl with
      | nil => rw [hcand] at h2; simp at h2
      | cons b tl2 => simp [process_event, get_integration, hcand]

/-- C10 witness: concrete empty and duplicated registries produce the two
ValueError outcomes. -/
theorem c10_same_exception_type_witness :
    ∃ m1 m2 : String, m1 ≠ m2 ∧
      process_event [] "s1" payloadPush = .error (.valueError m1) ∧
      process_event [integPush, integPush] "s1" payloadPush = .error (.valueError m2) :=
  c10_same_exception_type [] [integPush, integPush] "s1" payloadPush rfl (by decide)

/-- C9: an integration whose event_name is the empty string (or absent,
defaulting to empty) is a candidate for a payload iff that payload contains
the empty string as a top-level key; it does not match every payload. -/
theorem c9_empty_event_name_matches_empty_key
    (config : List Integration) (integ : Integration) (secret : String) (payload : Payload)
    (hmem : integ ∈ config) (hsec : integ.secret = some secret)
    (hev : integ.event_name.getD "" = "") :
    integ ∈ candidates config secret payload ↔ hasKey payload "" = true := by
  have hAcc : accepts "" payload = hasKey payload "" := by
    unfold accepts
    rw [if_neg (by decide), if_neg (by decide)]
  constructor
  · intro h
    obtain ⟨-, hpred⟩ := List.mem_filter.mp h
    rw [Bool.and_eq_true] at hpred
    have := hpred.2
    rw [hev, hAcc] at this
    exact this
  · intro h
    apply List.mem_filter.mpr
    refine ⟨hmem, ?_⟩
    rw [Bool.and_eq_true]
    exact ⟨by simp [hsec], by rw [hev, hAcc]; exact h⟩

/-- An integration with no event_name field, used by the C9 witness. -/
def integNoEvent : Integration :=
  { name := some "catch", destination_url := some "https://chat.example/hook",
    message_format := some "x", secret := some "s2" }

/-- C9 witness: the empty-event integration is a candidate exactly for a
payload carrying the empty-string key. -/
theorem c9_empty_event_name_matches_empty_key_witness :
    integNoEvent ∈ candidates [integNoEvent] "s2" [("", Json.null)] :=
  (c9_empty_event_name_matches_empty_key [integNoEvent] integNoEvent "s2"
    [("", Json.null)] (by simp) rfl rfl).mpr rfl

/-- C7: every missing intermediate object on a pull_request nested lookup
path is treated as an empty mapping and the traversal returns the
corresponding default without crashing: a missing top-level "pull_request"
yields the pr_user and pr_title defaults, a missing "user" inside a present
pull_request object yields the pr_user default, and a missing top-level
"repository" yields the repository default. -/
theorem c7_missing_intermediates_use_defaults (payload : Payload) :
    (hasKey payload "pull_request" = false →
       prUserOf payload = .ok (.str "usuario_desconocido") ∧
       prTitleOf payload = .ok (.str "sin título")) ∧
    (∀ kvs : List (String × Json),
       payload.lookup "pull_request" = some (.obj kvs) →
       kvs.lookup "user" = none →
       prUserOf payload = .ok (.str "usuario_desconocido")) ∧
    (hasKey payload "repository" = false →
       repositoryOf payload = .ok (.str "repositorio_desconocido")) := by
  refine ⟨?_, ?_, ?_⟩
  · intro h
    have hl : payload.lookup "pull_request" = none := by
      cases hx : payload.lookup "pull_request" with
      | none => rfl
      | some v => rw [hasKey, hx] at h; simp at h
    exact ⟨by simp [prUserOf, pyGetD, pyGet, hl], by simp [prTitleOf, pyGetD, pyGet, hl]⟩
  · intro kvs hl hu
    simp [prUserOf, pyGetD, pyGet, hl, hu]
  · intro h
    have hl : payload.lookup "repository" = none := by
      cases hx : payload.lookup "repository" with
      | none => rfl
      | some v => rw [hasKey, hx] at h; simp at h
    simp [repositoryOf, pyGetD, pyGet, hl]

/-- C7 witness: the empty payload exercises the missing pull_request and
missing repository cases, and a payload whose pull_request object lacks a
"user" entry exercises the missing nested intermediate case. -/
theorem c7_missing_intermediates_use_defaults_witness :
    (prUserOf [] = .ok (.str "usuario_desconocido") ∧
     prTitleOf [] = .ok (.str "sin título")) ∧
    prUserOf [("pull_request", Json.obj [("title", Json.str "Fix bug")])] =
      .ok (.str "usuario_desconocido") ∧
    repositoryOf [] = .ok (.str "repositorio_desconocido") :=
  ⟨(c7_missing_intermediates_use_defaults []).1 rfl,
   (c7_missing_intermediates_use_defaults
      [("pull_request", Json.obj [("title", Json.str "Fix bug")])]).2.1
      [("title", Json.str "Fix bug")] rfl rfl,
   (c7_missing_intermediates_use_defaults []).2.2 rfl⟩

/-- C3: when the template names a placeholder absent from the extracted
variable set, generate_message returns exactly "Evento recibido: " followed
by the JSON serialization of the full payload, and process_event still
proceeds to delivery with that fallback message instead of failing. -/
theorem c3_missing_placeholder_falls_back
    (integ : Integration) (payload : Payload) (vars : List (String × Json))
    (t : String) (ps : List String) (n : String)
    (hvars : formatVarsFor integ payload = .ok vars)
    (ht : integ.message_format = some t)
    (hps : templateFields t = some ps)
    (hn : n ∈ ps) (hmiss : lookupVar vars n = none) :
    generate_message integ payload = .ok ("Evento recibido: " ++ jsonDumps (.obj payload)) ∧
    (∀ (config : List Integration) (secret : String),
       get_integration config secret payload = .ok (some integ) →
       process_event config secret payload =
         .ok (integ, "Evento recibido: " ++ jsonDumps (.obj payload))) := by
  obtain ⟨k, hk⟩ := runFields_missing_runFmt vars t.data .lit ps hps ⟨n, hn, hmiss⟩
  have hgen : generate_message integ payload =
      .ok ("Evento recibido: " ++ jsonDumps (.obj payload)) := by
    simp [generate_message, hvars, ht, pyFormat, hk, fallbackMessage]
  refine ⟨hgen, ?_⟩
  intro config secret hres
  simp [process_event, hres, hgen]

/-- Integration with a template naming an unknown placeholder, for C3/C4. -/
def integBadTemplate : Integration :=
  { name := some "bad", destination_url := some "https://chat.example/hook",
    event_name := some "push", message_format := some "{nonexistent}",
    secret := some "s1" }

/-- A minimal payload accepted by push integrations. -/
def payloadCommitsEmpty : Payload := [("commits", Json.arr [])]

/-- C3 witness: the "\x7bnonexistent\x7d" template on a push payload renders the
fixed fallback message. -/
theorem c3_missing_placeholder_falls_back_witness :
    generate_message integBadTemplate payloadCommitsEmpty =
      .ok ("Evento recibido: " ++ jsonDumps (.obj payloadCommitsEmpty)) :=
  (c3_missing_placeholder_falls_back integBadTemplate payloadCommitsEmpty
    [("pusher", .str "usuario_desconocido"), ("repository", .str "repositorio_desconocido"),
     ("commit_count", .num 0)]
    "{nonexistent}" ["nonexistent"] "nonexistent" rfl rfl rfl (by simp) rfl).1

/-- C4 counterexample: generate_message succeeds with the empty string on an
empty template (so the result is not always non-empty), and raises
ValueError on a template consisting of a single opening brace (so it does
not always succeed). -/
theorem c4_counterexample :
    generate_message { event_name := some "custom", message_format := some "" } [] = .ok "" ∧
    generate_message { event_name := some "custom", message_format := some "\x7b" } [] =
      .error (.valueError "Single \x7b encountered in format string") :=
  ⟨rfl, rfl⟩

/-- C4 amended: when variable extraction succeeds and the messageFormat is a
well-formed plain-keyword template, generate_message never raises — it
returns some string, though that string may be empty (for instance for the
empty template), so non-emptiness is only guaranteed on the fallback path. -/
theorem c4_amended_render_succeeds_on_wellformed_template
    (integ : Integration) (payload : Payload) (vars : List (String × Json))
    (t : String) (ps : List String)
    (hvars : formatVarsFor integ payload = .ok vars)
    (ht : integ.message_format = some t)
    (hps : templateFields t = some ps) :
    ∃ s : String, generate_message integ payload = .ok s := by
  by_cases hall : ∀ n ∈ ps, (lookupVar vars n).isSome = true
  · obtain ⟨s, hs⟩ := runFields_ok_runFmt vars t.data .lit ps hps hall
    exact ⟨String.mk s, by simp [generate_message, hvars, ht, pyFormat, hs]⟩
  · push_neg at hall
    obtain ⟨n, hn, hnot⟩ := hall
    have hnone : lookupVar vars n = none := by
      cases hv : lookupVar vars n with
      | none => rfl
      | some v => rw [hv] at hnot; simp at hnot
    obtain ⟨k, hk⟩ := runFields_missing_runFmt vars t.data .lit ps hps ⟨n, hn, hnone⟩
    exact ⟨fallbackMessage payload, by simp [generate_message, hvars, ht, pyFormat, hk]⟩

/-- C4 amended witness: rendering the push example never raises. -/
theorem c4_amended_render_succeeds_on_wellformed_template_witness :
    ∃ s : String, generate_message integPush payloadPush = .ok s :=
  c4_amended_render_succeeds_on_wellformed_template integPush payloadPush
    [("pusher", .str "bob"), ("repository", .str "repo1"), ("commit_count", .num 3)]
    "{pusher} pushed {commit_count} commits to {repository}"
    ["pusher", "commit_count", "repository"] rfl rfl rfl

/-- C5 counterexample: with "commits" bound to the number 5 the claim
prescribes commit_count 0 (not a sequence), but the code raises TypeError
from len instead of extracting anything. -/
theorem c5_counterexample :
    formatVarsFor { event_name := some "push" } [("commits", Json.num 5)] =
      .error (.typeError "object of type int has no len()") ∧
    pushVarsSpec [("commits", Json.num 5)] =
      [("pusher", .str "usuario_desconocido"),
       ("repository", .str "repositorio_desconocido"),
       ("commit_count", .num 0)] :=
  ⟨rfl, rfl⟩

/-- C5 amended: the push extraction matches the claimed pusher.name,
repository.name and commits-count rule (with the stated defaults) on every
payload whose "pusher" and "repository" entries are absent or objects and
whose "commits" entry is absent or an array; a wrong-typed entry instead
raises an uncaught exception.  The concrete example renders exactly
"bob pushed 3 commits to repo1". -/
theorem c5_amended_push_extraction :
    (∀ (integ : Integration) (p : Payload),
       integ.event_name = some "push" →
       objOrAbsent p "pusher" = true →
       objOrAbsent p "repository" = true →
       arrOrAbsent p "commits" = true →
       formatVarsFor integ p = .ok (pushVarsSpec p)) ∧
    generate_message integPush payloadPush = .ok "bob pushed 3 commits to repo1" := by
  constructor
  · intro integ p hev hp hr hc
    have h1 := pusherOf_spec p hp
    have h2 := repositoryOf_spec p hr
    have h3 := commitCountOf_spec p hc
    simp [formatVarsFor, hev, h1, h2, h3, pushVarsSpec]
  · rfl

/-- C5 amended witness: the example payload satisfies the shape hypotheses
and extraction yields the described variables. -/
theorem c5_amended_push_extraction_witness :
    formatVarsFor integPush payloadPush = .ok (pushVarsSpec payloadPush) :=
  c5_amended_push_extraction.1 integPush payloadPush rfl rfl rfl rfl

/-- C6 counterexample: with "pull_request" bound to the number 5 the claim
prescribes the defaults for pr_user and pr_title, but the code raises
AttributeError from the .get chain instead of extracting anything. -/
theorem c6_counterexample :
    formatVarsFor { event_name := some "pull_request" } [("pull_request", Json.num 5)] =
      .error (.attributeError "int object has no attribute get") ∧
    pullReqVarsSpec [("pull_request", Json.num 5)] =
      [("action", .str "actualizó"),
       ("pr_user", .str "usuario_desconocido"),
       ("repository", .str "repositorio_desconocido"),
       ("pr_title", .str "sin título")] :=
  ⟨rfl, rfl⟩

/-- C6 amended: the pull_request extraction matches the claimed action,
pull_request.user.login, repository.name and pull_request.title rule (with
the stated defaults) on every payload whose intermediates on those paths are
absent or objects; a wrong-typed intermediate instead raises an uncaught
exception.  The concrete example renders exactly
"PR opened by alice on repo1: Fix bug". -/
theorem c6_amended_pr_extraction :
    (∀ (integ : Integration) (p : Payload),
       integ.event_name = some "pull_request" →
       objOrAbsent2 p "pull_request" "user" = true →
       objOrAbsent p "repository" = true →
       formatVarsFor integ p = .ok (pullReqVarsSpec p)) ∧
    generate_message integPullRequest payloadPullRequest =
      .ok "PR opened by alice on repo1: Fix bug" := by
  constructor
  · intro integ p hev hpr hr
    have h1 := prUserOf_spec p hpr
    have h2 := repositoryOf_spec p hr
    have h3 := prTitleOf_spec p (objOrAbsent2_fst p "pull_request" "user" hpr)
    simp [formatVarsFor, hev, h1, h2, h3, pullReqVarsSpec, actionOf, specGet, pyGetD]
  · rfl

/-- C6 amended witness: the example payload satisfies the shape hypotheses
and extraction yields the described variables. -/
theorem c6_amended_pr_extraction_witness :
    formatVarsFor integPullRequest payloadPullRequest = .ok (pullReqVarsSpec payloadPullRequest) :=
  c6_amended_pr_extraction.1 integPullRequest payloadPullRequest rfl rfl rfl

/-- C8 counterexample: the header "aBearer b" does not start with "Bearer "
yet is not passed through unchanged — the inner occurrence is removed — and
"Bearer Bearer t" loses both occurrences, not only the leading prefix. -/
theorem c8_counterexample :
    extractSecret "aBearer b" = "ab" ∧
    extractSecret "aBearer b" ≠ "aBearer b" ∧
    extractSecret "Bearer Bearer t" = "t" := by
  have h1 : extractSecret "aBearer b" = "ab" := by
    show String.mk
        (replaceBearer ('a' :: 'B' :: 'e' :: 'a' :: 'r' :: 'e' :: 'r' :: ' ' :: 'b' :: [])) = "ab"
    rw [replaceBearer_cons_not _ _ (by decide), replaceBearer_cons_bearer,
        replaceBearer_cons_not _ _ (by decide), replaceBearer_nil]
  have h3 : extractSecret "Bearer Bearer t" = "t" := by
    show String.mk
        (replaceBearer ('B' :: 'e' :: 'a' :: 'r' :: 'e' :: 'r' :: ' ' ::
          'B' :: 'e' :: 'a' :: 'r' :: 'e' :: 'r' :: ' ' :: 't' :: [])) = "t"
    rw [replaceBearer_cons_bearer, replaceBearer_cons_bearer,
        replaceBearer_cons_not _ _ (by decide), replaceBearer_nil]
  exact ⟨h1, by rw [h1]; decide, h3⟩

/-- C8 amended: the secret handed to the core is the header value with every
occurrence of the substring "Bearer " removed by a non-overlapping
left-to-right scan: a header without the substring passes through unchanged,
and a leading "Bearer " is removed with the removal continuing on the
remainder of the header. -/
theorem c8_amended_removes_every_occurrence :
    (∀ h : String, containsBearer h.data = false → extractSecret h = h) ∧
    (∀ t : String, extractSecret ("Bearer " ++ t) = extractSecret t) := by
  constructor
  · intro h hh
    obtain ⟨d⟩ := h
    show String.mk (replaceBearer d) = String.mk d
    rw [replaceBearer_of_not_contains d hh]
  · intro t
    obtain ⟨td⟩ := t
    show String.mk (replaceBearer ('B' :: 'e' :: 'a' :: 'r' :: 'e' :: 'r' :: ' ' :: td)) =
      String.mk (replaceBearer td)
    rw [replaceBearer_cons_bearer]

/-- C8 amended witness: a Bearer-free header passes through unchanged and a
leading "Bearer " is stripped before the scan continues. -/
theorem c8_amended_removes_every_occurrence_witness :
    containsBearer "tok".data = false ∧
    extractSecret "tok" = "tok" ∧
    extractSecret ("Bearer " ++ "tok") = extractSecret "tok" :=
  ⟨rfl, c8_amended_removes_every_occurrence.1 "tok" rfl,
   c8_amended_removes_every_occurrence.2 "tok"⟩

end WebhookProxy
